import Mathlib

/-!
Formal model of the image caching and retrieval subsystem of the
expo-image-cache repository (src/webCache.ts, src/consts.ts, the CachedImage
component, and src/hooks/useIntersectionObserver.ts).

Modelling conventions:
- JavaScript numbers that hold epoch times and expiry durations are modelled
  as Lean integers.  The source compares real-valued quotients such as
  (Date.now() - data.timestamp) / 1000 > data.expiresIn; over the integer
  inputs actually involved this is exactly equivalent to the cross-multiplied
  comparison nowMs - timestamp > 1000 * expiresIn used here (the division in
  the source is exact real division, not truncating division).
- JavaScript truthiness of the optional numeric field expiresIn is modelled
  precisely: a present value of 0 is falsy, so the source skips the expiry
  check for it.
- Asynchronous effects (IndexedDB open/get/put/delete outcomes, fetch
  results, the current clock value) are decided by the external world; they
  are passed in explicitly as a WebEnv record so that every operation is a
  pure function from the environment and the current cache state.
- A rejected promise is modelled as Except.error; a normally resolved one as
  Except.ok.  Blob object URLs are modelled by the byte list they reference.
-/

namespace ExpoImageCache

/-- Bytes of an image blob (the payload a blob object URL references). -/
abbrev Blob := List Nat

/-- Record persisted in the IndexedDB object store, from the CachedImage
interface in src/types.ts: sanitized key, blob, write timestamp in
milliseconds, optional expiry in seconds. -/
structure CachedImage where
  key : String
  blob : Blob
  timestamp : Int
  expiresIn : Option Int
deriving DecidableEq

/-- Contents of the IndexedDB object store: association of sanitized keys to
records (keyPath "key"). -/
abbrev Store := List (String × CachedImage)

/-- Lookup of a record by key in the object store. -/
def storeGet : Store → String → Option CachedImage
  | [], _ => none
  | (k, v) :: rest, key => if k = key then some v else storeGet rest key

/-- Removal of the record at a key (IDBObjectStore.delete). -/
def storeDelete (st : Store) (k : String) : Store :=
  st.filter (fun p => p.1 ≠ k)

/-- Overwriting write of a record at a key (IDBObjectStore.put with keyPath
"key"): any existing record for the key is replaced. -/
def storePut (st : Store) (k : String) (v : CachedImage) : Store :=
  (k, v) :: storeDelete st k

/-- Mutable state of the WebImageCache singleton: the private field
`db : IDBDatabase | null`, carrying the store contents when open. -/
structure WebCacheState where
  db : Option Store
deriving DecidableEq

/-- Outcome of one `fetch(uri)` call: the promise rejects, or it resolves
with a response whose `ok` flag and body bytes are given. -/
inductive FetchOutcome
  | throws
  | response (ok : Bool) (blob : Blob)
deriving DecidableEq

/-- External world for one run of web-cache operations: the outcome of
`indexedDB.open` (the stored contents on success, or `none` when the open
request errors), whether the individual IndexedDB get/put/delete requests
error, the current `Date.now()` value in milliseconds, and the outcome of
`fetch` per URI. -/
structure WebEnv where
  initResult : Option Store
  getErr : Bool
  putErr : Bool
  delErr : Bool
  nowMs : Int
  fetchFn : String → FetchOutcome

namespace WebImageCache

/-- Model of `WebImageCache.init`: returns at once when `this.db` is already
set; otherwise opens IndexedDB, which either rejects (the open request
errors) or resolves after storing the database handle. -/
def init (env : WebEnv) (s : WebCacheState) : Except Unit WebCacheState :=
  match s.db with
  | some _ => .ok s
  | none =>
    match env.initResult with
    | some store => .ok ⟨some store⟩
    | none => .error ()

/-- Expiration test performed inside `WebImageCache.getImage`:
`if (data.expiresIn)` is JavaScript truthiness, so a present 0 disables the
check; otherwise the entry is expired when
`(Date.now() - data.timestamp) / 1000 > data.expiresIn`, written here in the
equivalent cross-multiplied form. -/
def entryExpired (nowMs : Int) (d : CachedImage) : Bool :=
  match d.expiresIn with
  | none => false
  | some e => (e != 0) && (nowMs - d.timestamp > 1000 * e)

/-- Model of `WebImageCache.deleteImage`: awaits `init` (propagating its
rejection), re-sanitizes the key it is given, and deletes the record; a
transaction error is swallowed (the promise resolves with the store
untouched). -/
def deleteImage (sanitize : String → String) (env : WebEnv) (s : WebCacheState)
    (key : String) : Except Unit WebCacheState :=
  match init env s with
  | .error e => .error e
  | .ok s1 =>
    match s1.db with
    | none => .ok s1
    | some store =>
      if env.delErr then .ok s1
      else .ok ⟨some (storeDelete store (sanitize key))⟩

/-- Model of `WebImageCache.getImage`: awaits `init` (propagating its
rejection), resolves null when `this.db` is still null or the get request
errors or the key is absent; on an expired record it fires `deleteImage` on
the already-sanitized key and resolves null; otherwise it resolves an object
URL referencing the stored blob. -/
def getImage (sanitize : String → String) (env : WebEnv) (s : WebCacheState)
    (key : String) : Except Unit (Option Blob × WebCacheState) :=
  match init env s with
  | .error e => .error e
  | .ok s1 =>
    match s1.db with
    | none => .ok (none, s1)
    | some store =>
      if env.getErr then .ok (none, s1)
      else
        match storeGet store (sanitize key) with
        | none => .ok (none, s1)
        | some data =>
          if entryExpired env.nowMs data then
            match deleteImage sanitize env s1 (sanitize key) with
            | .error _ => .ok (none, s1)
            | .ok s2 => .ok (none, s2)
          else .ok (some data.blob, s1)

/-- Model of `WebImageCache.saveImage`: awaits `init` (propagating its
rejection), resolves null when `this.db` is null or the put request errors;
otherwise writes the record with the current timestamp and resolves an
object URL referencing the blob just written. -/
def saveImage (sanitize : String → String) (env : WebEnv) (s : WebCacheState)
    (key : String) (blob : Blob) (expiresIn : Option Int) :
    Except Unit (Option Blob × WebCacheState) :=
  match init env s with
  | .error e => .error e
  | .ok s1 =>
    match s1.db with
    | none => .ok (none, s1)
    | some store =>
      if env.putErr then .ok (none, s1)
      else
        .ok (some blob,
          ⟨some (storePut store (sanitize key)
            ⟨sanitize key, blob, env.nowMs, expiresIn⟩)⟩)

/-- Body of the try block of `WebImageCache.downloadAndCache`: a rejected
fetch is a raised failure; a non-ok response resolves null without storing;
otherwise the body is saved via `saveImage` (whose own rejection, from a
failed `init`, propagates out of the try block). -/
def downloadAndCacheTry (sanitize : String → String) (env : WebEnv)
    (s : WebCacheState) (uri key : String) (expiresIn : Option Int) :
    Except Unit (Option Blob × WebCacheState) :=
  match env.fetchFn uri with
  | .throws => .error ()
  | .response ok blob =>
    if !ok then .ok (none, s)
    else saveImage sanitize env s key blob expiresIn

/-- Model of `WebImageCache.downloadAndCache`: the catch clause converts
every failure raised inside the try block to a null result, leaving the
cache state as it was. -/
def downloadAndCache (sanitize : String → String) (env : WebEnv)
    (s : WebCacheState) (uri key : String) (expiresIn : Option Int) :
    Option Blob × WebCacheState :=
  match downloadAndCacheTry sanitize env s uri key expiresIn with
  | .error _ => (none, s)
  | .ok r => r

/-- Truth of "the fetch failed or returned a non-success status" for one
fetch outcome. -/
def fetchFails : FetchOutcome → Bool
  | .throws => true
  | .response ok _ => !ok

end WebImageCache

/-- Value held by the component's `imgUri` state once set: a blob object URL
referencing cached bytes, or the unmodified remote URI used as fallback. -/
inductive Resolved
  | handle (bytes : Blob)
  | original (uri : String)
deriving DecidableEq

/-- Slice of the CachedImage component state touched by the resolve flow:
`imgUri`, `hasError`, `isLoading`. -/
structure CompState where
  imgUri : Option Resolved
  hasError : Bool
  isLoading : Bool
deriving DecidableEq

/-- Model of `loadImageWeb` in the CachedImage component.  The `mounted`
argument is the value `componentIsMounted.current` has at every read that
the continuation performs (false throughout when the instance was torn down
before the continuation ran).  The result carries the `setImgUri` update
performed (if any), the cache state, and the number of network fetches
issued. -/
def loadImageWeb (sanitize : String → String) (env : WebEnv) (mounted : Bool)
    (s : WebCacheState) (uri key : String) (expiresIn : Option Int) :
    Except Unit (Option Resolved × WebCacheState × Nat) :=
  match WebImageCache.getImage sanitize env s key with
  | .error e => .error e
  | .ok (cached, s1) =>
    match cached with
    | some bytes =>
      if mounted then .ok (some (.handle bytes), s1, 0)
      else .ok (none, s1, 0)
    | none =>
      if mounted then
        match WebImageCache.downloadAndCache sanitize env s1 uri key expiresIn with
        | (newUri, s2) =>
          if mounted then
            match newUri with
            | some bytes => .ok (some (.handle bytes), s2, 1)
            | none => .ok (some (.original uri), s2, 1)
          else .ok (none, s2, 1)
      else .ok (none, s1, 0)

/-- Synchronous prefix of `loadImageAsync`, run before the first await while
the instance is still mounted: `setIsLoading(true); setHasError(false)`. -/
def phase1 (c : CompState) : CompState :=
  { c with isLoading := true, hasError := false }

/-- Model of `loadImageAsync` on web: after the synchronous prefix, the try
block runs `loadImageWeb`; the catch clause sets `hasError` with no mounted
guard and sets `imgUri` to the original URI under a mounted guard; the
finally clause clears `isLoading` with no mounted guard. -/
def loadImageAsyncWeb (sanitize : String → String) (env : WebEnv)
    (mounted : Bool) (s : WebCacheState) (c0 : CompState)
    (uri key : String) (expiresIn : Option Int) :
    CompState × WebCacheState × Nat :=
  let c1 := phase1 c0
  match loadImageWeb sanitize env mounted s uri key expiresIn with
  | .ok (upd, s1, n) =>
    let c2 := match upd with
      | some r => { c1 with imgUri := some r }
      | none => c1
    ({ c2 with isLoading := false }, s1, n)
  | .error _ =>
    let c2 := { c1 with hasError := true }
    let c3 := if mounted then { c2 with imgUri := some (.original uri) } else c2
    ({ c3 with isLoading := false }, s, 0)

/-- Model of the `onError` handler of the rendered image: the only place the
component sets `hasError` in reaction to the resolved URI failing to render,
guarded by the mounted check. -/
def onErrorHandler (mounted : Bool) (c : CompState) : CompState :=
  if mounted then { c with hasError := true } else c

/-- Truth of `u.startsWith("blob:")`, computed over the character data. -/
def isBlobUrl (u : String) : Bool :=
  u.data.take 5 == "blob:".data

/-- Model of the web branch of the useEffect cleanup: the object URLs revoked
at teardown, namely each of `imgUri` and `previewUri` that is a blob URL. -/
def cleanupRevoked (imgUri previewUri : Option String) : List String :=
  (match imgUri with
   | some u => if isBlobUrl u then [u] else []
   | none => []) ++
  (match previewUri with
   | some u => if isBlobUrl u then [u] else []
   | none => [])

/-- Result of `FileSystem.getInfoAsync` for the cache file on native.  When
the file does not exist the source only ever reads the `exists` flag (every
use of the other fields is short-circuited away), so total fields are safe
here.  `modificationTime` is in seconds. -/
structure FileInfo where
  exists' : Bool
  size : Nat
  modificationTime : Int
deriving DecidableEq

/-- Model of `isImageExpired` in the CachedImage component:
`Boolean(metadata?.exists && expiresIn && now/1000 - mtime > expiresIn)`,
with JavaScript truthiness of `expiresIn` (a present 0 is falsy) and the
real-division comparison written in cross-multiplied form. -/
def isImageExpired (expiresIn : Option Int) (nowMs : Int) (m : FileInfo) : Bool :=
  m.exists' &&
    match expiresIn with
    | none => false
    | some e => (e != 0) && (nowMs - 1000 * m.modificationTime > 1000 * e)

/-- Model of `shouldDownloadImage`: the file is missing, or empty, or
expired, with the checks short-circuiting in that order. -/
def shouldDownloadImage (expiresIn : Option Int) (nowMs : Int) (m : FileInfo) : Bool :=
  !m.exists' || m.size == 0 || isImageExpired expiresIn nowMs m

/-- Filesystem effects the native load path performs. -/
inductive NEvent
  | deleteFile
  | download
deriving DecidableEq

/-- Effect trace of `loadImageNative` (mounted instance): a valid cached file
performs no filesystem writes; an expired file goes through
`handleExpiredImage`, which deletes the file and then re-downloads; a missing
or empty file goes directly through `downloadImage`. -/
def loadImageNativeTrace (expiresIn : Option Int) (nowMs : Int) (m : FileInfo) :
    List NEvent :=
  if !(shouldDownloadImage expiresIn nowMs m) then []
  else if isImageExpired expiresIn nowMs m then [.deleteFile, .download]
  else [.download]

/-- Value `handleSuccessfulDownload` assigns to `imgUri`: the cache file path
with a cache-buster query suffix, or the unmodified remote URI on a failed
download. -/
inductive NativeSet
  | cacheBusted (fileURI : String)
  | originalUri (uri : String)
deriving DecidableEq

/-- Model of `handleSuccessfulDownload`: nothing happens when the instance is
unmounted; a 200 status sets the cache-busted file path; any other status
deletes the just-written file and falls back to the original URI.  The
boolean records whether the delete ran. -/
def handleSuccessfulDownload (mounted : Bool) (status : Int)
    (fileURI uri : String) : Option NativeSet × Bool :=
  if !mounted then (none, false)
  else if status = 200 then (some (.cacheBusted fileURI), false)
  else (some (.originalUri uri), true)

/-- Platform the component runs on. -/
inductive PlatformOS
  | web
  | ios
  | android
deriving DecidableEq

/-- Value `isIntersecting` holds right after the effect body of
`useIntersectionObserver` runs, given its value `current` before the effect:
when observation is disabled or the platform is not web it is set to true
(also when the target ref is additionally absent the early return keeps that
branch); when enabled on web with a target present an observer is registered
and the value is unchanged until a callback fires. -/
def useIntersectionObserverEffect (enabled : Bool) (os : PlatformOS)
    (targetPresent : Bool) (current : Bool) : Bool :=
  if enabled = false ∨ os ≠ PlatformOS.web ∨ targetPresent = false then
    if enabled = false ∨ os ≠ PlatformOS.web then true else current
  else current

/-- Gate in the component's useEffect deciding whether to invoke the resolve:
`if (!lazy || isIntersecting) loadImageAsync()`. -/
def shouldLoadNow (lazyFlag isIntersecting : Bool) : Bool :=
  !lazyFlag || isIntersecting

/-- Record written by `saveImage` for given key, blob, time and expiry. -/
def savedRecord (sk : String) (blob : Blob) (nowMs : Int)
    (expiresIn : Option Int) : CachedImage :=
  ⟨sk, blob, nowMs, expiresIn⟩

/-- Lookup after an overwriting write at the same key finds the record just
written. -/
theorem storeGet_storePut_self (st : Store) (k : String) (v : CachedImage) :
    storeGet (storePut st k v) k = some v := by
  simp [storePut, storeGet]

/-- Once the database handle is present, `getImage` resolves normally on
every branch, whatever the request outcomes. -/
theorem getImage_ok_of_db (sanitize : String → String) (env : WebEnv)
    (store : Store) (key : String) :
    ∃ r, WebImageCache.getImage sanitize env ⟨some store⟩ key = .ok r := by
  cases hge : env.getErr with
  | true =>
    exact ⟨(none, ⟨some store⟩),
      by simp [WebImageCache.getImage, WebImageCache.init, hge]⟩
  | false =>
    cases hsg : storeGet store (sanitize key) with
    | none =>
      exact ⟨(none, ⟨some store⟩),
        by simp [WebImageCache.getImage, WebImageCache.init, hge, hsg]⟩
    | some d =>
      cases hex : WebImageCache.entryExpired env.nowMs d with
      | false =>
        exact ⟨(some d.blob, ⟨some store⟩),
          by simp [WebImageCache.getImage, WebImageCache.init, hge, hsg, hex]⟩
      | true =>
        cases hde : env.delErr with
        | true =>
          exact ⟨(none, ⟨some store⟩),
            by simp [WebImageCache.getImage, WebImageCache.init,
              WebImageCache.deleteImage, hge, hsg, hex, hde]⟩
        | false =>
          exact ⟨(none, ⟨some (storeDelete store (sanitize (sanitize key)))⟩),
            by simp [WebImageCache.getImage, WebImageCache.init,
              WebImageCache.deleteImage, hge, hsg, hex, hde]⟩

/-- Once the database handle is present, the web load flow resolves normally
on every branch. -/
theorem loadImageWeb_ok_of_db (sanitize : String → String) (env : WebEnv)
    (mounted : Bool) (store : Store) (uri key : String)
    (expiresIn : Option Int) :
    ∃ r, loadImageWeb sanitize env mounted ⟨some store⟩ uri key expiresIn = .ok r := by
  obtain ⟨⟨cached, s1⟩, hr⟩ := getImage_ok_of_db sanitize env store key
  cases cached with
  | some bytes =>
    cases mounted with
    | true => exact ⟨(some (.handle bytes), s1, 0), by simp [loadImageWeb, hr]⟩
    | false => exact ⟨(none, s1, 0), by simp [loadImageWeb, hr]⟩
  | none =>
    cases mounted with
    | false => exact ⟨(none, s1, 0), by simp [loadImageWeb, hr]⟩
    | true =>
      cases hdc : WebImageCache.downloadAndCache sanitize env s1 uri key expiresIn with
      | mk newUri s2 =>
        cases newUri with
        | some bytes =>
          exact ⟨(some (.handle bytes), s2, 1), by simp [loadImageWeb, hr, hdc]⟩
        | none =>
          exact ⟨(some (.original uri), s2, 1), by simp [loadImageWeb, hr, hdc]⟩

/-- With the mounted flag false at every guard, the web load flow never
performs a `setImgUri` update and never issues a fetch: it either rejects or
resolves with no update. -/
theorem loadImageWeb_unmounted (sanitize : String → String) (env : WebEnv)
    (s : WebCacheState) (uri key : String) (expiresIn : Option Int) :
    loadImageWeb sanitize env false s uri key expiresIn = .error () ∨
      ∃ s1, loadImageWeb sanitize env false s uri key expiresIn = .ok (none, s1, 0) := by
  cases hg : WebImageCache.getImage sanitize env s key with
  | error e => left; simp [loadImageWeb, hg]
  | ok p =>
    obtain ⟨cached, s1⟩ := p
    right
    refine ⟨s1, ?_⟩
    cases cached <;> simp [loadImageWeb, hg]

/-- C1: for every key and URI, a resolve that finds a present, unexpired
cache entry returns a handle to the cached payload and performs no network
fetch; and two sequential resolves of the same (uri, key) with expiresIn=60
within 60 seconds, the first succeeding, issue exactly one network fetch in
the first call and none in the second, both returning handles referencing
the same bytes. -/
theorem c1_resolve_cache_hit_and_single_fetch :
    (∀ (sanitize : String → String) (env : WebEnv) (store : Store)
        (uri key : String) (expiresIn : Option Int) (d : CachedImage),
      env.getErr = false →
      storeGet store (sanitize key) = some d →
      WebImageCache.entryExpired env.nowMs d = false →
      loadImageWeb sanitize env true ⟨some store⟩ uri key expiresIn =
        .ok (some (.handle d.blob), ⟨some store⟩, 0)) ∧
    (∀ (sanitize : String → String) (env1 env2 : WebEnv) (store : Store)
        (uri key : String) (b : Blob),
      env1.getErr = false →
      env1.putErr = false →
      env1.fetchFn uri = .response true b →
      storeGet store (sanitize key) = none →
      env2.getErr = false →
      env2.nowMs - env1.nowMs ≤ 1000 * 60 →
      ∃ s1 : WebCacheState,
        loadImageWeb sanitize env1 true ⟨some store⟩ uri key (some 60) =
          .ok (some (.handle b), s1, 1) ∧
        loadImageWeb sanitize env2 true s1 uri key (some 60) =
          .ok (some (.handle b), s1, 0)) := by
  constructor
  · intro sanitize env store uri key expiresIn d hg hget hex
    simp [loadImageWeb, WebImageCache.getImage, WebImageCache.init, hg, hget, hex]
  · intro sanitize env1 env2 store uri key b hg1 hp1 hf1 hget hg2 hdt
    refine ⟨⟨some (storePut store (sanitize key)
      ⟨sanitize key, b, env1.nowMs, some 60⟩)⟩, ?_, ?_⟩
    · simp [loadImageWeb, WebImageCache.getImage, WebImageCache.init, hg1, hget,
        WebImageCache.downloadAndCache, WebImageCache.downloadAndCacheTry, hf1,
        WebImageCache.saveImage, hp1]
    · have hex : WebImageCache.entryExpired env2.nowMs
          ⟨sanitize key, b, env1.nowMs, some 60⟩ = false := by
        simp [WebImageCache.entryExpired]
        omega
      simp [loadImageWeb, WebImageCache.getImage, WebImageCache.init, hg2,
        storeGet_storePut_self, hex]

/-- Witness for C1 at concrete inputs: an empty store, a fetch delivering
bytes [7] at time 1000 ms, and a second resolve at 31000 ms. -/
theorem c1_witness :
    (loadImageWeb (fun k => k)
        ⟨some [], false, false, false, 30000, fun _ => .response true [9]⟩ true
        ⟨some [("k1", ⟨"k1", [7], 0, some 60⟩)]⟩ "https://x/img.png" "k1" (some 60) =
      .ok (some (.handle [7]), ⟨some [("k1", ⟨"k1", [7], 0, some 60⟩)]⟩, 0)) ∧
    (∃ s1 : WebCacheState,
      loadImageWeb (fun k => k)
          ⟨some [], false, false, false, 1000, fun _ => .response true [7]⟩ true
          ⟨some []⟩ "https://x/img.png" "k1" (some 60) =
        .ok (some (.handle [7]), s1, 1) ∧
      loadImageWeb (fun k => k)
          ⟨some [], false, false, false, 31000, fun _ => .response true [9]⟩ true
          s1 "https://x/img.png" "k1" (some 60) =
        .ok (some (.handle [7]), s1, 0)) := by
  constructor
  · exact c1_resolve_cache_hit_and_single_fetch.1 (fun k => k)
      ⟨some [], false, false, false, 30000, fun _ => .response true [9]⟩
      [("k1", ⟨"k1", [7], 0, some 60⟩)] "https://x/img.png" "k1" (some 60)
      ⟨"k1", [7], 0, some 60⟩ rfl (by decide) (by decide)
  · exact c1_resolve_cache_hit_and_single_fetch.2 (fun k => k)
      ⟨some [], false, false, false, 1000, fun _ => .response true [7]⟩
      ⟨some [], false, false, false, 31000, fun _ => .response true [9]⟩
      [] "https://x/img.png" "k1" [7] rfl rfl rfl rfl rfl (by decide)

/-- C2 fails as stated: this entry has its expiresIn field set (to 0) and
5 seconds have elapsed, exceeding it, so the claim requires the read to
delete the entry and miss; yet `getImage` returns the payload and keeps the
entry, because JavaScript truthiness makes a present 0 skip the expiry
check. -/
theorem c2_counterexample :
    ((⟨"k", [1], 0, some 0⟩ : CachedImage).expiresIn = some 0 ∧
      (5000 : Int) - (⟨"k", [1], 0, some 0⟩ : CachedImage).timestamp > 1000 * 0) ∧
    WebImageCache.getImage (fun k => k)
        ⟨some [], false, false, false, 5000, fun _ => .throws⟩
        ⟨some [("k", ⟨"k", [1], 0, some 0⟩)]⟩ "k" =
      .ok (some [1], ⟨some [("k", ⟨"k", [1], 0, some 0⟩)]⟩) :=
  ⟨⟨rfl, by decide⟩, rfl⟩

/-- C2 as amended: an entry is treated as expired iff its expiresIn field is
set to a nonzero value and the elapsed time exceeds it; an expired web read
deletes the entry (under the re-sanitized key) and returns the miss result,
and an expired native read deletes the file and re-downloads.  The native
test additionally requires the file to exist. -/
theorem c2_expired_iff_nonzero_and_deleted :
    (∀ (nowMs : Int) (d : CachedImage),
      WebImageCache.entryExpired nowMs d = true ↔
        ∃ e, d.expiresIn = some e ∧ e ≠ 0 ∧ nowMs - d.timestamp > 1000 * e) ∧
    (∀ (sanitize : String → String) (env : WebEnv) (store : Store)
        (key : String) (d : CachedImage),
      env.getErr = false →
      env.delErr = false →
      storeGet store (sanitize key) = some d →
      WebImageCache.entryExpired env.nowMs d = true →
      WebImageCache.getImage sanitize env ⟨some store⟩ key =
        .ok (none, ⟨some (storeDelete store (sanitize (sanitize key)))⟩)) ∧
    (∀ (expiresIn : Option Int) (nowMs : Int) (m : FileInfo),
      isImageExpired expiresIn nowMs m = true ↔
        m.exists' = true ∧
          ∃ e, expiresIn = some e ∧ e ≠ 0 ∧
            nowMs - 1000 * m.modificationTime > 1000 * e) ∧
    (∀ (expiresIn : Option Int) (nowMs : Int) (m : FileInfo),
      isImageExpired expiresIn nowMs m = true →
      loadImageNativeTrace expiresIn nowMs m = [NEvent.deleteFile, NEvent.download]) := by
  refine ⟨?_, ?_, ?_, ?_⟩
  · intro nowMs d
    cases hd : d.expiresIn with
    | none => simp [WebImageCache.entryExpired, hd]
    | some e => simp [WebImageCache.entryExpired, hd]
  · intro sanitize env store key d hg hde hget hex
    simp [WebImageCache.getImage, WebImageCache.init, WebImageCache.deleteImage,
      hg, hde, hget, hex]
  · intro expiresIn nowMs m
    cases he : expiresIn with
    | none => simp [isImageExpired, he]
    | some e => simp [isImageExpired, he, and_assoc]
  · intro expiresIn nowMs m hex
    simp [loadImageNativeTrace, shouldDownloadImage, hex]

/-- Witness for C2 as amended, at a concrete expired entry (expiresIn = 2,
elapsed 5 seconds) and a concrete expired native file. -/
theorem c2_witness :
    (WebImageCache.getImage (fun k => k)
        ⟨some [], false, false, false, 5000, fun _ => .throws⟩
        ⟨some [("k", ⟨"k", [1], 0, some 2⟩)]⟩ "k" =
      .ok (none, ⟨some (storeDelete [("k", ⟨"k", [1], 0, some 2⟩)] "k")⟩)) ∧
    (WebImageCache.entryExpired 5000 ⟨"k", [1], 0, some 2⟩ = true ↔
      ∃ e, (some 2 : Option Int) = some e ∧ e ≠ 0 ∧ (5000 : Int) - 0 > 1000 * e) ∧
    loadImageNativeTrace (some 1) 10000 ⟨true, 5, 0⟩ =
      [NEvent.deleteFile, NEvent.download] :=
  ⟨c2_expired_iff_nonzero_and_deleted.2.1 (fun k => k)
      ⟨some [], false, false, false, 5000, fun _ => .throws⟩
      [("k", ⟨"k", [1], 0, some 2⟩)] "k" ⟨"k", [1], 0, some 2⟩
      rfl rfl rfl (by decide),
    c2_expired_iff_nonzero_and_deleted.1 5000 ⟨"k", [1], 0, some 2⟩,
    c2_expired_iff_nonzero_and_deleted.2.2.2 (some 1) 10000 ⟨true, 5, 0⟩ (by decide)⟩

/-- Failing fetches leave `downloadAndCache` with a null result and an
untouched store. -/
theorem downloadAndCache_of_fetchFails (sanitize : String → String)
    (env : WebEnv) (s : WebCacheState) (uri key : String)
    (expiresIn : Option Int)
    (hf : WebImageCache.fetchFails (env.fetchFn uri) = true) :
    WebImageCache.downloadAndCache sanitize env s uri key expiresIn = (none, s) := by
  cases hfo : env.fetchFn uri with
  | throws =>
    simp [WebImageCache.downloadAndCache, WebImageCache.downloadAndCacheTry, hfo]
  | response ok blob =>
    rw [hfo] at hf
    simp [WebImageCache.fetchFails] at hf
    simp [WebImageCache.downloadAndCache, WebImageCache.downloadAndCacheTry, hfo, hf]

/-- C3: when the network fetch rejects or returns a non-success status,
`downloadAndCache` returns null and leaves the store untouched; a resolve
that missed the cache then sets the literal original URI, and no entry
exists for the key afterward; on native, a non-200 download result deletes
the just-written file and falls back to the original URI. -/
theorem c3_fetch_failure_fallback :
    (∀ (sanitize : String → String) (env : WebEnv) (s : WebCacheState)
        (uri key : String) (expiresIn : Option Int),
      WebImageCache.fetchFails (env.fetchFn uri) = true →
      WebImageCache.downloadAndCache sanitize env s uri key expiresIn = (none, s)) ∧
    (∀ (sanitize : String → String) (env : WebEnv) (store : Store)
        (uri key : String) (expiresIn : Option Int),
      env.getErr = false →
      storeGet store (sanitize key) = none →
      WebImageCache.fetchFails (env.fetchFn uri) = true →
      loadImageWeb sanitize env true ⟨some store⟩ uri key expiresIn =
          .ok (some (.original uri), ⟨some store⟩, 1) ∧
        storeGet store (sanitize key) = none) ∧
    (∀ (status : Int) (fileURI uri : String),
      status ≠ 200 →
      handleSuccessfulDownload true status fileURI uri =
        (some (.originalUri uri), true)) := by
  refine ⟨?_, ?_, ?_⟩
  · intro sanitize env s uri key expiresIn hf
    exact downloadAndCache_of_fetchFails sanitize env s uri key expiresIn hf
  · intro sanitize env store uri key expiresIn hg hget hf
    have hdc := downloadAndCache_of_fetchFails sanitize env ⟨some store⟩ uri key
      expiresIn hf
    refine ⟨?_, hget⟩
    simp [loadImageWeb, WebImageCache.getImage, WebImageCache.init, hg, hget, hdc]
  · intro status fileURI uri hs
    simp [handleSuccessfulDownload, hs]

/-- Witness for C3 at concrete inputs: a rejecting fetch against an empty
store, and a 404 native download result. -/
theorem c3_witness :
    (WebImageCache.downloadAndCache (fun k => k)
        ⟨some [], false, false, false, 0, fun _ => .throws⟩
        ⟨some []⟩ "https://x/a.png" "k" none = (none, ⟨some []⟩)) ∧
    (loadImageWeb (fun k => k)
        ⟨some [], false, false, false, 0, fun _ => .response false [3]⟩ true
        ⟨some []⟩ "https://x/a.png" "k" none =
      .ok (some (.original "https://x/a.png"), ⟨some []⟩, 1)) ∧
    handleSuccessfulDownload true 404 "file:///cache/k.png" "https://x/a.png" =
      (some (.originalUri "https://x/a.png"), true) :=
  ⟨c3_fetch_failure_fallback.1 (fun k => k)
      ⟨some [], false, false, false, 0, fun _ => .throws⟩
      ⟨some []⟩ "https://x/a.png" "k" none rfl,
    (c3_fetch_failure_fallback.2.1 (fun k => k)
      ⟨some [], false, false, false, 0, fun _ => .response false [3]⟩
      [] "https://x/a.png" "k" none rfl rfl rfl).1,
    c3_fetch_failure_fallback.2.2 404 "file:///cache/k.png" "https://x/a.png"
      (by decide)⟩

/-- C4 fails as stated: when the database handle is absent and the
IndexedDB open request errors, `getImage` awaits `init` with no protection,
so the internal initialization failure propagates to the caller as a
rejection instead of the miss result. -/
theorem c4_counterexample :
    WebImageCache.getImage (fun k => k)
        ⟨none, false, false, false, 0, fun _ => .throws⟩ ⟨none⟩ "k" =
      .error () := rfl

/-- C4 as amended: once the database handle is present (or the open request
succeeds), `getImage` never raises: a missing record, an erroring read
request, and the expired-entry path all resolve normally (with the miss
result in the failure cases); only a failed storage initialization
propagates as an exception. -/
theorem c4_get_never_raises_once_initialized :
    ∀ (sanitize : String → String) (env : WebEnv) (s : WebCacheState)
      (key : String),
      ((∃ st, s.db = some st) ∨ (∃ st, env.initResult = some st)) →
      ∃ r, WebImageCache.getImage sanitize env s key = .ok r := by
  intro sanitize env s key h
  obtain ⟨db⟩ := s
  have hinit : ∃ store, WebImageCache.init env ⟨db⟩ =
      .ok (⟨some store⟩ : WebCacheState) := by
    rcases h with ⟨st, hdb⟩ | ⟨st, hi⟩
    · simp only at hdb
      subst hdb
      exact ⟨st, rfl⟩
    · cases db with
      | some st2 => exact ⟨st2, rfl⟩
      | none => exact ⟨st, by simp [WebImageCache.init, hi]⟩
  obtain ⟨store, hstore⟩ := hinit
  obtain ⟨r, hr⟩ := getImage_ok_of_db sanitize env store key
  refine ⟨r, ?_⟩
  rw [WebImageCache.getImage] at hr ⊢
  rw [hstore]
  rw [show WebImageCache.init env ⟨some store⟩ =
    .ok (⟨some store⟩ : WebCacheState) from rfl] at hr
  exact hr

/-- Witness for C4 as amended: with the handle already present over an empty
store, the declared read on a missing key resolves normally. -/
theorem c4_witness :
    ∃ r, WebImageCache.getImage (fun k => k)
        ⟨none, true, false, false, 0, fun _ => .throws⟩ ⟨some []⟩ "k" = .ok r :=
  c4_get_never_raises_once_initialized (fun k => k)
    ⟨none, true, false, false, 0, fun _ => .throws⟩ ⟨some []⟩ "k"
    (Or.inl ⟨[], rfl⟩)

/-- C5: putting (k, p) and then getting k returns a handle whose bytes equal
p, provided the get occurs within expiresIn seconds of the put, or expiresIn
was not set (the write and the read requests succeeding). -/
theorem c5_put_get_roundtrip :
    ∀ (sanitize : String → String) (env1 env2 : WebEnv) (store : Store)
      (key : String) (blob : Blob) (expiresIn : Option Int),
      env1.putErr = false →
      env2.getErr = false →
      (expiresIn = none ∨
        ∃ e, expiresIn = some e ∧ env2.nowMs - env1.nowMs ≤ 1000 * e) →
      ∃ s1, WebImageCache.saveImage sanitize env1 ⟨some store⟩ key blob expiresIn =
          .ok (some blob, s1) ∧
        WebImageCache.getImage sanitize env2 s1 key = .ok (some blob, s1) := by
  intro sanitize env1 env2 store key blob expiresIn hp hg hin
  refine ⟨⟨some (storePut store (sanitize key)
    ⟨sanitize key, blob, env1.nowMs, expiresIn⟩)⟩, ?_, ?_⟩
  · simp [WebImageCache.saveImage, WebImageCache.init, hp]
  · have hex : WebImageCache.entryExpired env2.nowMs
        ⟨sanitize key, blob, env1.nowMs, expiresIn⟩ = false := by
      rcases hin with hnone | ⟨e, he, hle⟩
      · simp [WebImageCache.entryExpired, hnone]
      · simp [WebImageCache.entryExpired, he]
        omega
    simp [WebImageCache.getImage, WebImageCache.init, hg,
      storeGet_storePut_self, hex]

/-- Witness for C5 at a concrete put of bytes [4, 2] with expiresIn 10,
read back 3 seconds later. -/
theorem c5_witness :
    ∃ s1, WebImageCache.saveImage (fun k => k)
        ⟨some [], false, false, false, 1000, fun _ => .throws⟩
        ⟨some []⟩ "k" [4, 2] (some 10) = .ok (some [4, 2], s1) ∧
      WebImageCache.getImage (fun k => k)
        ⟨some [], false, false, false, 4000, fun _ => .throws⟩
        s1 "k" = .ok (some [4, 2], s1) :=
  c5_put_get_roundtrip (fun k => k)
    ⟨some [], false, false, false, 1000, fun _ => .throws⟩
    ⟨some [], false, false, false, 4000, fun _ => .throws⟩
    [] "k" [4, 2] (some 10) rfl rfl (Or.inr ⟨10, rfl, by decide⟩)

/-- C6 fails as stated: when the storage initialization fails, the rejection
propagates out of `getImage` into the catch clause of `loadImageAsync`,
which sets `hasError` — so a cache failure during resolve sets the
user-visible error flag even though the image never failed to render (the
fallback URI is still installed alongside). -/
theorem c6_counterexample :
    (loadImageAsyncWeb (fun k => k)
        ⟨none, false, false, false, 0, fun _ => .throws⟩ true
        ⟨none⟩ ⟨none, false, false⟩ "https://x/a.png" "k" none).1 =
      ⟨some (.original "https://x/a.png"), true, false⟩ := rfl

/-- C6 as amended: as long as resolve does not throw (the storage handle is
present), handled cache and network failures leave `hasError` unset — and a
failed fetch on a miss yields the unmodified remote URI as the handle —
while the render-failure handler is a place that sets `hasError`; but a
resolve that throws (failed storage initialization) also sets `hasError`
via the unguarded catch clause. -/
theorem c6_error_flag_amended :
    (∀ (sanitize : String → String) (env : WebEnv) (store : Store)
        (c0 : CompState) (uri key : String) (expiresIn : Option Int),
      (loadImageAsyncWeb sanitize env true ⟨some store⟩ c0 uri key
        expiresIn).1.hasError = false) ∧
    (∀ (sanitize : String → String) (env : WebEnv) (store : Store)
        (c0 : CompState) (uri key : String) (expiresIn : Option Int),
      env.getErr = false →
      storeGet store (sanitize key) = none →
      WebImageCache.fetchFails (env.fetchFn uri) = true →
      (loadImageAsyncWeb sanitize env true ⟨some store⟩ c0 uri key
        expiresIn).1.imgUri = some (.original uri)) ∧
    (∀ c : CompState, (onErrorHandler true c).hasError = true) := by
  refine ⟨?_, ?_, ?_⟩
  · intro sanitize env store c0 uri key expiresIn
    obtain ⟨⟨upd, s1, n⟩, hr⟩ :=
      loadImageWeb_ok_of_db sanitize env true store uri key expiresIn
    cases upd <;> simp [loadImageAsyncWeb, hr, phase1]
  · intro sanitize env store c0 uri key expiresIn hg hget hf
    have hdc := downloadAndCache_of_fetchFails sanitize env ⟨some store⟩ uri key
      expiresIn hf
    have hlw : loadImageWeb sanitize env true ⟨some store⟩ uri key expiresIn =
        .ok (some (.original uri), ⟨some store⟩, 1) := by
      simp [loadImageWeb, WebImageCache.getImage, WebImageCache.init, hg, hget, hdc]
    simp [loadImageAsyncWeb, hlw]
  · intro c
    simp [onErrorHandler]

/-- Witness for C6 as amended: a run over a present store whose fetch
returns a non-ok response, and the render-failure handler on a fresh
state. -/
theorem c6_witness :
    ((loadImageAsyncWeb (fun k => k)
        ⟨some [], false, false, false, 0, fun _ => .response false [3]⟩ true
        ⟨some []⟩ ⟨none, false, false⟩ "https://x/a.png" "k" none).1.hasError =
      false) ∧
    ((loadImageAsyncWeb (fun k => k)
        ⟨some [], false, false, false, 0, fun _ => .response false [3]⟩ true
        ⟨some []⟩ ⟨none, false, false⟩ "https://x/a.png" "k" none).1.imgUri =
      some (.original "https://x/a.png")) ∧
    (onErrorHandler true ⟨none, false, false⟩).hasError = true :=
  ⟨c6_error_flag_amended.1 (fun k => k)
      ⟨some [], false, false, false, 0, fun _ => .response false [3]⟩
      [] ⟨none, false, false⟩ "https://x/a.png" "k" none,
    c6_error_flag_amended.2.1 (fun k => k)
      ⟨some [], false, false, false, 0, fun _ => .response false [3]⟩
      [] ⟨none, false, false⟩ "https://x/a.png" "k" none rfl rfl rfl,
    c6_error_flag_amended.2.2 ⟨none, false, false⟩⟩

/-- C7 fails as stated: this zero-byte file (size 0, old modification time,
expiresIn 1 s, now 10 s) is dispatched through the expired path
(delete-then-download) of `loadImageNative`, not through the plain miss
path, because `loadImageNative` tests `isImageExpired` before the
missing-or-empty case once a re-download is required. -/
theorem c7_counterexample :
    ((⟨true, 0, 0⟩ : FileInfo).size = 0 ∧
      loadImageNativeTrace (some 1) 10000 ⟨true, 0, 0⟩ =
        [NEvent.deleteFile, NEvent.download]) ∧
    [NEvent.deleteFile, NEvent.download] ≠ [NEvent.download] :=
  ⟨⟨rfl, rfl⟩, by decide⟩

/-- C7 as amended: a missing or zero-byte file always requires a re-fetch
regardless of the expiry inputs; a missing file is never classified as
expired and always takes the plain re-download path; a zero-byte file that
is not expired also takes the plain re-download path, but a zero-byte file
that additionally satisfies the expiry test is dispatched through the
expired delete-then-download path. -/
theorem c7_missing_or_empty_requires_refetch :
    (∀ (expiresIn : Option Int) (nowMs : Int) (m : FileInfo),
      (m.exists' = false ∨ m.size = 0) →
      shouldDownloadImage expiresIn nowMs m = true) ∧
    (∀ (expiresIn : Option Int) (nowMs : Int) (m : FileInfo),
      m.exists' = false →
      isImageExpired expiresIn nowMs m = false ∧
        loadImageNativeTrace expiresIn nowMs m = [NEvent.download]) ∧
    (∀ (expiresIn : Option Int) (nowMs : Int) (m : FileInfo),
      m.size = 0 →
      isImageExpired expiresIn nowMs m = false →
      loadImageNativeTrace expiresIn nowMs m = [NEvent.download]) := by
  refine ⟨?_, ?_, ?_⟩
  · intro expiresIn nowMs m h
    rcases h with h | h <;> simp [shouldDownloadImage, h]
  · intro expiresIn nowMs m h
    have hex : isImageExpired expiresIn nowMs m = false := by
      simp [isImageExpired, h]
    exact ⟨hex, by simp [loadImageNativeTrace, shouldDownloadImage, h, hex]⟩
  · intro expiresIn nowMs m h hex
    simp [loadImageNativeTrace, shouldDownloadImage, h, hex]

/-- Witness for C7 as amended: a missing file and a fresh zero-byte file. -/
theorem c7_witness :
    shouldDownloadImage (some 60) 5000 ⟨false, 9, 0⟩ = true ∧
    (isImageExpired (some 60) 99999999 ⟨false, 9, 0⟩ = false ∧
      loadImageNativeTrace (some 60) 99999999 ⟨false, 9, 0⟩ = [NEvent.download]) ∧
    loadImageNativeTrace (some 60) 5000 ⟨true, 0, 0⟩ = [NEvent.download] :=
  ⟨c7_missing_or_empty_requires_refetch.1 (some 60) 5000 ⟨false, 9, 0⟩
      (Or.inl rfl),
    c7_missing_or_empty_requires_refetch.2.1 (some 60) 99999999 ⟨false, 9, 0⟩ rfl,
    c7_missing_or_empty_requires_refetch.2.2 (some 60) 5000 ⟨true, 0, 0⟩ rfl
      (by decide)⟩

/-- C8 fails as stated: with the instance torn down before the continuation
runs (mounted false at every guard), the state after the continuation
differs from the state at teardown time — the catch clause sets `hasError`
and the finally clause clears `isLoading` without any still-mounted guard,
so state updates are applied after teardown. -/
theorem c8_counterexample :
    (loadImageAsyncWeb (fun k => k)
        ⟨none, false, false, false, 0, fun _ => .throws⟩ false
        ⟨none⟩ ⟨none, false, false⟩ "https://x/a.png" "k" none).1 ≠
      phase1 ⟨none, false, false⟩ := by decide

/-- C8 as amended: after teardown the resolve continuation never changes
`imgUri` (those updates are guarded by the still-mounted check) and the
cleanup revokes every blob handle held at teardown time; but the error flag
and the loading flag are mutated by the unguarded catch and finally clauses
even after teardown. -/
theorem c8_unmounted_guard_and_release :
    (∀ (sanitize : String → String) (env : WebEnv) (s : WebCacheState)
        (c0 : CompState) (uri key : String) (expiresIn : Option Int),
      (loadImageAsyncWeb sanitize env false s c0 uri key
        expiresIn).1.imgUri = c0.imgUri) ∧
    (∀ (img prev : Option String) (u : String),
      (img = some u → isBlobUrl u = true → u ∈ cleanupRevoked img prev) ∧
      (prev = some u → isBlobUrl u = true → u ∈ cleanupRevoked img prev)) := by
  constructor
  · intro sanitize env s c0 uri key expiresIn
    rcases loadImageWeb_unmounted sanitize env s uri key expiresIn with
      h | ⟨s1, h⟩ <;> simp [loadImageAsyncWeb, h, phase1]
  · intro img prev u
    constructor
    · intro h hb
      subst h
      simp [cleanupRevoked, hb]
    · intro h hb
      subst h
      cases img with
      | none => simp [cleanupRevoked, hb]
      | some v => by_cases hv : isBlobUrl v <;> simp [cleanupRevoked, hb, hv]

/-- Witness for C8 as amended: a torn-down run whose `imgUri` is unchanged,
and a held blob handle that the cleanup revokes. -/
theorem c8_witness :
    ((loadImageAsyncWeb (fun k => k)
        ⟨none, false, false, false, 0, fun _ => .throws⟩ false
        ⟨none⟩ ⟨some (.handle [7]), false, false⟩ "https://x/a.png" "k"
        none).1.imgUri = some (.handle [7])) ∧
    "blob:abc" ∈ cleanupRevoked (some "blob:abc") none :=
  ⟨c8_unmounted_guard_and_release.1 (fun k => k)
      ⟨none, false, false, false, 0, fun _ => .throws⟩
      ⟨none⟩ ⟨some (.handle [7]), false, false⟩ "https://x/a.png" "k" none,
    (c8_unmounted_guard_and_release.2 (some "blob:abc") none "blob:abc").1
      rfl (by decide)⟩

/-- C9: whenever lazy observation is disabled or the platform is not web,
the effect of `useIntersectionObserver` sets the visibility signal to true
unconditionally; consequently on a non-web platform the load gate
`!lazy || isIntersecting` is true whatever the lazy flag or actual
viewport state. -/
theorem c9_native_or_disabled_always_visible :
    (∀ (enabled : Bool) (os : PlatformOS) (targetPresent current : Bool),
      (enabled = false ∨ os ≠ PlatformOS.web) →
      useIntersectionObserverEffect enabled os targetPresent current = true) ∧
    (∀ (lazyFlag : Bool) (os : PlatformOS) (targetPresent current : Bool),
      os ≠ PlatformOS.web →
      shouldLoadNow lazyFlag
        (useIntersectionObserverEffect lazyFlag os targetPresent current) = true) := by
  constructor
  · intro enabled os targetPresent current h
    rcases h with h | h <;> simp [useIntersectionObserverEffect, h]
  · intro lazyFlag os targetPresent current h
    cases lazyFlag with
    | false => simp [shouldLoadNow]
    | true => simp [shouldLoadNow, useIntersectionObserverEffect, h]

/-- Witness for C9: lazy loading enabled on iOS with the element genuinely
off-screen still reports visible, and the load gate fires. -/
theorem c9_witness :
    useIntersectionObserverEffect true PlatformOS.ios true false = true ∧
    shouldLoadNow true
      (useIntersectionObserverEffect true PlatformOS.ios true false) = true :=
  ⟨c9_native_or_disabled_always_visible.1 true PlatformOS.ios true false
      (Or.inr (by decide)),
    c9_native_or_disabled_always_visible.2 true PlatformOS.ios true false
      (by decide)⟩

/-- C10: `downloadAndCache` never raises: a rejecting fetch and a storage
initialization failure raised out of `saveImage` are both caught and
converted to the null result with the state untouched, and in general the
catch clause turns every rejection of the try block into the null result. -/
theorem c10_downloadAndCache_never_raises :
    ∀ (sanitize : String → String) (env : WebEnv) (s : WebCacheState)
      (uri key : String) (expiresIn : Option Int) (b : Blob),
      (env.fetchFn uri = .throws →
        WebImageCache.downloadAndCache sanitize env s uri key expiresIn =
          (none, s)) ∧
      (env.fetchFn uri = .response true b → env.initResult = none →
        s.db = none →
        WebImageCache.downloadAndCache sanitize env s uri key expiresIn =
          (none, s)) ∧
      ((∃ r, WebImageCache.downloadAndCacheTry sanitize env s uri key expiresIn =
            .ok r ∧
          WebImageCache.downloadAndCache sanitize env s uri key expiresIn = r) ∨
        (WebImageCache.downloadAndCacheTry sanitize env s uri key expiresIn =
            .error () ∧
          WebImageCache.downloadAndCache sanitize env s uri key expiresIn =
            (none, s))) := by
  intro sanitize env s uri key expiresIn b
  refine ⟨?_, ?_, ?_⟩
  · intro h
    simp [WebImageCache.downloadAndCache, WebImageCache.downloadAndCacheTry, h]
  · intro hf hi hdb
    simp [WebImageCache.downloadAndCache, WebImageCache.downloadAndCacheTry, hf,
      WebImageCache.saveImage, WebImageCache.init, hdb, hi]
  · cases htry : WebImageCache.downloadAndCacheTry sanitize env s uri key expiresIn with
    | error e =>
      right
      cases e
      exact ⟨rfl, by simp [WebImageCache.downloadAndCache, htry]⟩
    | ok r =>
      left
      exact ⟨r, rfl, by simp [WebImageCache.downloadAndCache, htry]⟩

/-- Witness for C10: a rejecting fetch, and a successful fetch over a cache
whose storage initialization fails, both yield null with the state
untouched. -/
theorem c10_witness :
    (WebImageCache.downloadAndCache (fun k => k)
        ⟨some [], false, false, false, 0, fun _ => .throws⟩
        ⟨none⟩ "https://x/a.png" "k" none = (none, ⟨none⟩)) ∧
    (WebImageCache.downloadAndCache (fun k => k)
        ⟨none, false, false, false, 0, fun _ => .response true [7]⟩
        ⟨none⟩ "https://x/a.png" "k" none = (none, ⟨none⟩)) :=
  ⟨(c10_downloadAndCache_never_raises (fun k => k)
      ⟨some [], false, false, false, 0, fun _ => .throws⟩
      ⟨none⟩ "https://x/a.png" "k" none []).1 rfl,
    (c10_downloadAndCache_never_raises (fun k => k)
      ⟨none, false, false, false, 0, fun _ => .response true [7]⟩
      ⟨none⟩ "https://x/a.png" "k" none [7]).2.1 rfl rfl rfl⟩

end ExpoImageCache
